import Mathlib

/-!
Verification of the Vietnamese address-converter scraping pipeline.

This file gives a shallow embedding of the pipeline of the repository
(`src/utils.ts`, `src/scraper.ts`, `src/index.ts` and the resume-capable
variants of the main module) and proves properties of the embedded
definitions.  The browser session is abstracted as an oracle: selecting a
prefecture is parametrised by the set of options the page offers, and one
workflow attempt is parametrised by its outcome.  All other logic (string
rewriting, validation, retry/backoff bookkeeping, checkpointing, resume
cursor resolution) is translated function by function from the source.
-/

/-- Input record, `InputAddressData` of `src/types.ts`. -/
structure InputAddressData where
  city_name : String
  pref_old_id : Int
  pref_name : String
deriving DecidableEq, Repr

/-- Output record, `OutputAddressData` of `src/types.ts`.  The optional
`pref_new_fallback` field is `none` when the key is absent from the emitted
JSON object. -/
structure OutputAddressData where
  city_name : String
  pref_old_id : Int
  pref_old_name : String
  pref_new_name : String
  pref_new_fallback : Option String
deriving DecidableEq, Repr

/-- A JSON field value as far as `validateInputData` can observe it:
a number (JSON numbers carried exactly, as rationals), a string, `null`,
or the key being absent. -/
inductive JsonValue where
  | num (q : ℚ)
  | str (s : String)
  | null
  | missing
deriving DecidableEq, Repr

/-- A raw input record before validation: each field may be absent or of
the wrong runtime type. -/
structure RawRecord where
  city_name : JsonValue
  pref_old_id : JsonValue
  pref_name : JsonValue
deriving DecidableEq, Repr

/-- JavaScript truthiness of a field value, as used by
`!item.city_name || !item.pref_name` in `validateInputData`. -/
def truthy : JsonValue → Bool
  | .num q => q ≠ 0
  | .str s => s ≠ ""
  | .null => false
  | .missing => false

/-- Whether `typeof value === "number"` holds for the field value. -/
def isNumberType : JsonValue → Bool
  | .num _ => true
  | _ => false

/-- Whether the field value is a number that is an integer. -/
def isIntegerValue : JsonValue → Bool
  | .num q => q.den = 1
  | _ => false

/-- `validateInputData` of `src/utils.ts` (lines 60-72): keep exactly the
records whose `city_name` and `pref_name` are truthy and whose
`pref_old_id` has runtime type number; dropping a record only logs. -/
def validateInputData (data : List RawRecord) : List RawRecord :=
  data.filter (fun item =>
    truthy item.city_name && truthy item.pref_name && isNumberType item.pref_old_id)

/-- State of a JSON file on disk: absent, present but unparsable, or
parsed as a list of output records. -/
inductive FileState where
  | absent
  | corrupt
  | parsed (xs : List OutputAddressData)
deriving DecidableEq, Repr

/-- The two files the resume-capable pipeline reads at start-up:
`progress.json` and `converted_addresses.json`. -/
structure FS where
  progress : FileState
  output : FileState
deriving DecidableEq, Repr

/-- `getLastProcessedId` of `src/utils.ts` (lines 113-141): an absent file
(ENOENT) and an empty array both yield no cursor without error; an
unparsable file rethrows; otherwise the `pref_old_id` of the last element
is returned. -/
def getLastProcessedId : FileState → Except String (Option Int)
  | .absent => .ok none
  | .corrupt => .error "Failed to read progress file"
  | .parsed xs =>
    match xs.getLast? with
    | none => .ok none
    | some lastItem => .ok (some lastItem.pref_old_id)

/-- `readExistingOutputData` of `src/utils.ts` as observed through the
`try { ... } catch { existingResults = [] }` wrapper of the resume-capable
`processAllAddresses`: any failure degrades to the empty list. -/
def existingOf : FileState → List OutputAddressData
  | .parsed xs => xs
  | _ => []

/-- JavaScript regular-expression class whitespace test (the characters
matched by a single occurrence of the regex class used in
`selectPrefecture`), per ECMA-262: WhiteSpace, LineTerminator and the
Unicode space separators. -/
def jsWs (c : Char) : Bool :=
  c == ' ' || c == '\t' || c == '\n' || c == '\r' ||
  c == '\x0b' || c == '\x0c' ||
  c == '\u00A0' || c == '\u1680' ||
  ('\u2000' <= c && c <= '\u200A') ||
  c == '\u2028' || c == '\u2029' || c == '\u202F' || c == '\u205F' ||
  c == '\u3000' || c == '\uFEFF'

/-- Whether the character list begins with the given literal pattern
followed by one whitespace character (the anchored regex used in
`selectPrefecture`, e.g. matching at the start and then one whitespace). -/
def matchesAnchored : List Char → List Char → Bool
  | [], c :: _ => jsWs c
  | [], [] => false
  | _ :: _, [] => false
  | p :: ps, c :: cs => p == c && matchesAnchored ps cs

/-- One application of `String.prototype.replace` with an anchored pattern
`literal` + whitespace and a literal replacement: rewrite at most the first
(here: only possible) match. -/
def replaceAnchored (pat repl l : List Char) : List Char :=
  if matchesAnchored pat l then repl ++ l.drop (pat.length + 1) else l

/-- The literal part of the first rewritten pattern of `selectPrefecture`. -/
def huyenP : List Char := "Huyện".data

/-- The literal part of the second rewritten pattern of `selectPrefecture`. -/
def thanhPhoP : List Char := "Thành phố".data

/-- The literal part of the third rewritten pattern of `selectPrefecture`. -/
def quanP : List Char := "Quận".data

/-- The replacement text of all three rewrites of `selectPrefecture`. -/
def thiXaR : List Char := "Thị xã ".data

/-- The fallback-name synthesis of `selectPrefecture`
(`src/scraper.ts` lines 163-167): three successive anchored replaces. -/
def makeFallbackL (l : List Char) : List Char :=
  replaceAnchored quanP thiXaR
    (replaceAnchored thanhPhoP thiXaR
      (replaceAnchored huyenP thiXaR l))

/-- String-level wrapper of `makeFallbackL`. -/
def makeFallbackName (s : String) : String := ⟨makeFallbackL s.data⟩

/-- Failure modes of the prefecture-selection stage. -/
inductive PrefSelectError where
  | elementNotFound (name : String)
  | prefectureNotFound (orig fallback : String)
deriving DecidableEq, Repr

/-- `selectPrefecture` of `src/scraper.ts` (lines 145-184), with the page
abstracted as the set `avail` of option labels that can be clicked.  The
original name is tried first; when it fails and the synthesized fallback
differs from the original, the fallback is tried; when no rewrite applied,
the original failure is rethrown without attempting any fallback. -/
def selectPrefecture (avail : String → Bool) (prefName : String) :
    Except PrefSelectError String :=
  if avail prefName then .ok prefName
  else
    let fallbackName := makeFallbackName prefName
    if fallbackName ≠ prefName then
      if avail fallbackName then .ok fallbackName
      else .error (.prefectureNotFound prefName fallbackName)
    else .error (.elementNotFound prefName)

/-- Outcome of one successful pass through the five workflow stages of
`convertSingleAddress`: the extracted new name and the prefecture label
that was actually clicked (original or fallback). -/
structure WorkflowSuccess where
  actualPrefName : String
  newName : String
deriving DecidableEq, Repr

/-- Observable side effects of the retry loop of `convertSingleAddress`:
running one attempt, sleeping for a backoff delay (in seconds), and a full
browser-context refresh. -/
inductive RetryAction where
  | runAttempt (k : Nat)
  | backoff (seconds : Nat)
  | refreshContext
deriving DecidableEq, Repr

/-- The success-path result assembly of `convertSingleAddress`
(`src/scraper.ts` lines 377-392): echo the identity fields and attach
`pref_new_fallback` exactly when the clicked prefecture label differs from
the input name. -/
def mkResult (input : InputAddressData) (w : WorkflowSuccess) : OutputAddressData :=
  { city_name := input.city_name
    pref_old_id := input.pref_old_id
    pref_old_name := input.pref_name
    pref_new_name := w.newName
    pref_new_fallback := if w.actualPrefName ≠ input.pref_name then some w.newName else none }

/-- The error-marker entry pushed by the catch branch of
`processAllAddresses` in `src/index.ts` (lines 96-102). -/
def poisonResult (item : InputAddressData) (msg : String) : OutputAddressData :=
  { city_name := item.city_name
    pref_old_id := item.pref_old_id
    pref_old_name := item.pref_name
    pref_new_name := "ERROR: " ++ msg
    pref_new_fallback := some item.pref_name }

/-- The retry loop body of `convertSingleAddress` (`src/scraper.ts` lines
367-410).  `outcome k` is the result of the workflow on attempt `k`
(1-based); `attempt` is the current attempt number and the second argument
counts the attempts still allowed.  On a failure with attempts remaining
the loop sleeps `2 ^ attempt` seconds and refreshes the browser context
exactly on even attempt numbers; the returned error is the one of the last
attempt executed. -/
def retryGo (outcome : Nat → Except String WorkflowSuccess) :
    Nat → Nat → Except String WorkflowSuccess × List RetryAction
  | _, 0 => (.error "", [])
  | attempt, r + 1 =>
    match outcome attempt with
    | .ok w => (.ok w, [.runAttempt attempt])
    | .error e =>
      if r = 0 then (.error e, [.runAttempt attempt])
      else
        let tail := retryGo outcome (attempt + 1) r
        (tail.1,
          .runAttempt attempt :: .backoff (2 ^ attempt) ::
            ((if attempt % 2 = 0 then [RetryAction.refreshContext] else []) ++ tail.2))

/-- `convertSingleAddress` of `src/scraper.ts` (lines 362-413) with the
workflow abstracted by `outcome`: up to `maxRetries` attempts, assembling
the output record on the first success and rethrowing the last error on
exhaustion (`throw lastError` falls back to a generic error only when the
loop never ran).  The returned list records the retry-loop actions. -/
def convertSingleAddressM (maxRetries : Nat)
    (outcome : Nat → Except String WorkflowSuccess) (input : InputAddressData) :
    Except String OutputAddressData × List RetryAction :=
  if maxRetries = 0 then
    (.error ("Failed to process " ++ input.pref_name ++ " after " ++
      toString maxRetries ++ " attempts"), [])
  else
    let run := retryGo outcome 1 maxRetries
    (match run.1 with
     | .ok w => .ok (mkResult input w)
     | .error e => .error e, run.2)

/-- The per-item try/catch of `processAllAddresses` in `src/index.ts`
(lines 83-103): a successful conversion is pushed as is, a failed one is
replaced by the error-marker entry. -/
def convertOrPoison (convertE : InputAddressData → Except String OutputAddressData)
    (item : InputAddressData) : OutputAddressData :=
  match convertE item with
  | .ok r => r
  | .error e => poisonResult item e

/-- Result of a run of the `src/index.ts` pipeline: the accumulated
results and the successive contents written to the progress file. -/
structure V1Outcome where
  results : List OutputAddressData
  checkpoints : List (List OutputAddressData)
deriving DecidableEq, Repr

/-- The processing loop of `processAllAddresses` in `src/index.ts` (lines
65-107): per item, convert inside try/catch; the progress write at every
10th item sits inside the try, so it is skipped when that item's
conversion threw.  `idx` is the 1-based index of the current item. -/
def runLoopV1 (convertE : InputAddressData → Except String OutputAddressData) :
    List InputAddressData → Nat → List OutputAddressData →
    List OutputAddressData × List (List OutputAddressData)
  | [], _, acc => (acc, [])
  | item :: rest, idx, acc =>
    match convertE item with
    | .ok r =>
      let acc2 := acc ++ [r]
      let tail := runLoopV1 convertE rest (idx + 1) acc2
      if idx % 10 = 0 then (tail.1, acc2 :: tail.2) else tail
    | .error e =>
      let acc2 := acc ++ [poisonResult item e]
      let tail := runLoopV1 convertE rest (idx + 1) acc2
      tail

/-- `processAllAddresses` of `src/index.ts` over already-validated input:
an empty input aborts, otherwise the loop runs to completion (per-record
failures are absorbed as error-marker entries) and the results are
written. -/
def processAllAddressesV1
    (convertE : InputAddressData → Except String OutputAddressData)
    (inputData : List InputAddressData) : Except String V1Outcome :=
  if inputData.isEmpty then .error "No valid input data found"
  else
    let run := runLoopV1 convertE inputData 1 []
    .ok { results := run.1, checkpoints := run.2 }

/-- The `--resume` / `--start-from` options of the resume-capable
`processAllAddresses` variant. -/
structure RunOptions where
  startFromId : Option Int
  resumeFromProgress : Bool
deriving DecidableEq, Repr

/-- Step 1.5 of the resume-capable `processAllAddresses`: when resume is
requested the previously converted output is loaded (failures degrade to
the empty list), the progress file determines the cursor (its absence or
emptiness gives no cursor; an unparsable file aborts), and the explicit
`startFromId` branch is only reached when resume was NOT requested; a
zero `startFromId` is falsy in the source and therefore ignored. -/
def resolveStart (opts : RunOptions) (fs : FS) :
    Except String (Option Int × List OutputAddressData) :=
  if opts.resumeFromProgress then
    match getLastProcessedId fs.progress with
    | .error e => .error e
    | .ok none => .ok (none, existingOf fs.output)
    | .ok (some lastId) => .ok (some (lastId + 1), existingOf fs.output)
  else
    match opts.startFromId with
    | some k => if k = 0 then .ok (none, []) else .ok (some k, [])
    | none => .ok (none, [])

/-- The processing loop of the resume-capable `processAllAddresses`: no
per-item catch (a conversion failure aborts the whole run) and the
progress write at every 10th item stores the previously converted prefix
followed by this run's results so far. -/
def runLoopV2 (convertE : InputAddressData → Except String OutputAddressData)
    (existing : List OutputAddressData) :
    List InputAddressData → Nat → List OutputAddressData →
    Except String (List OutputAddressData × List (List OutputAddressData))
  | [], _, acc => .ok (acc, [])
  | item :: rest, idx, acc =>
    match convertE item with
    | .error e => .error e
    | .ok r =>
      let acc2 := acc ++ [r]
      match runLoopV2 convertE existing rest (idx + 1) acc2 with
      | .error e => .error e
      | .ok tail =>
        if idx % 10 = 0 then .ok (tail.1, (existing ++ acc2) :: tail.2)
        else .ok tail

/-- Observable outcome of a run of the resume-capable pipeline. -/
structure RunOutcome where
  priorResults : List OutputAddressData
  processed : List InputAddressData
  sessionResults : List OutputAddressData
  checkpoints : List (List OutputAddressData)
  finalOutput : Option (List OutputAddressData)
deriving DecidableEq, Repr

/-- The resume-capable `processAllAddresses` over already-validated input:
abort on empty input, resolve the starting cursor, filter to
`pref_old_id >= cursor` when a cursor exists (an empty filtered list is a
successful early return that touches no output), run the loop, and write
the previously converted prefix followed by this run's results. -/
def processAllAddressesV2
    (convertE : InputAddressData → Except String OutputAddressData)
    (opts : RunOptions) (inputData : List InputAddressData) (fs : FS) :
    Except String RunOutcome :=
  if inputData.isEmpty then .error "No valid input data found"
  else
    match resolveStart opts fs with
    | .error e => .error e
    | .ok (startFromId, existingResults) =>
      let filtered :=
        match startFromId with
        | none => inputData
        | some k => inputData.filter (fun item => decide (k ≤ item.pref_old_id))
      if startFromId.isSome && filtered.isEmpty then
        .ok { priorResults := existingResults, processed := [], sessionResults := [],
              checkpoints := [], finalOutput := none }
      else
        match runLoopV2 convertE existingResults filtered 1 [] with
        | .error e => .error e
        | .ok run =>
          .ok { priorResults := existingResults, processed := filtered,
                sessionResults := run.1, checkpoints := run.2,
                finalOutput := some (existingResults ++ run.1) }

/-- A conversion oracle that always succeeds with the pure function
`convert`. -/
def okOracle (convert : InputAddressData → OutputAddressData)
    (item : InputAddressData) : Except String OutputAddressData :=
  .ok (convert item)

/-- File-system state after a run of the resume-capable pipeline: the
progress file holds the last checkpoint written (if any), the output file
the final artifact (when the run reached the final write). -/
def applyRun (fs : FS) (out : RunOutcome) : FS :=
  { progress :=
      match out.checkpoints.getLast? with
      | some c => .parsed c
      | none => fs.progress
    output :=
      match out.finalOutput with
      | some o => .parsed o
      | none => fs.output }

/-- Specification-side formulation of the fallback synthesis as amended:
exactly the first matching pattern among `Huyện`, `Thành phố`, `Quận`,
each followed by one whitespace character, is replaced once by
`Thị xã `; otherwise the name is returned unchanged. -/
def specFallbackWsL (l : List Char) : List Char :=
  if matchesAnchored huyenP l then thiXaR ++ l.drop (huyenP.length + 1)
  else if matchesAnchored thanhPhoP l then thiXaR ++ l.drop (thanhPhoP.length + 1)
  else if matchesAnchored quanP l then thiXaR ++ l.drop (quanP.length + 1)
  else l

/-- String-level wrapper of `specFallbackWsL`. -/
def specFallbackWs (s : String) : String := ⟨specFallbackWsL s.data⟩

/-- The fallback synthesis as the claim literally states it: the first
matching prefix among the literal strings `"Huyện "`, `"Thành phố "`,
`"Quận "` (each ending in an ordinary space) replaced once by
`"Thị xã "`. -/
def claimFallbackSpace (s : String) : String :=
  if s.data.take 6 = "Huyện ".data then "Thị xã " ++ String.mk (s.data.drop 6)
  else if s.data.take 10 = "Thành phố ".data then "Thị xã " ++ String.mk (s.data.drop 10)
  else if s.data.take 5 = "Quận ".data then "Thị xã " ++ String.mk (s.data.drop 5)
  else s

/-- Invalidity of a raw record as the claim literally states it: missing
`city_name`, missing `pref_name`, or a `pref_old_id` that is not an
integer. -/
def claimInvalid (r : RawRecord) : Prop :=
  r.city_name = .missing ∨ r.pref_name = .missing ∨ isIntegerValue r.pref_old_id = false

instance : DecidablePred claimInvalid := fun r => by
  unfold claimInvalid; infer_instance

/-- Invalidity of a raw record as the code actually decides it: a falsy
(missing, null, empty-string or zero) `city_name` or `pref_name`, or a
`pref_old_id` whose runtime type is not number (any number, integer or
not, is accepted). -/
def amendedInvalid (r : RawRecord) : Prop :=
  truthy r.city_name = false ∨ truthy r.pref_name = false ∨
    isNumberType r.pref_old_id = false

instance : DecidablePred amendedInvalid := fun r => by
  unfold amendedInvalid; infer_instance

/-- Number of workflow attempts recorded in a retry-action trace. -/
def attemptCount (tr : List RetryAction) : Nat :=
  tr.countP (fun a => match a with | .runAttempt _ => true | _ => false)

/-- The retry-action trace specified for a span of attempts that all
fail: attempts `a, a+1, ..., a+r-1` in order, each failed attempt except
the last followed by a `2 ^ k` second backoff and, exactly when `k` is
even, a context refresh; the last failed attempt is followed by nothing. -/
def failTraceSpec (a r : Nat) : List RetryAction :=
  (((List.range (r - 1)).map (fun i =>
    RetryAction.runAttempt (a + i) :: RetryAction.backoff (2 ^ (a + i)) ::
      (if (a + i) % 2 = 0 then [RetryAction.refreshContext] else []))).flatten) ++
  [RetryAction.runAttempt (a + r - 1)]

/-- The checkpoint contents specified for the resume-capable loop: one
write for every position `j` (0-based) with `(idx + j) % 10 = 0`, holding
the existing prefix, the accumulator at entry, and the first `j + 1`
conversions. -/
def cpsSpecV2 (existing : List OutputAddressData)
    (convert : InputAddressData → OutputAddressData)
    (items : List InputAddressData) (idx : Nat) (acc : List OutputAddressData) :
    List (List OutputAddressData) :=
  (List.range items.length).filterMap (fun j =>
    if (idx + j) % 10 = 0 then
      some (existing ++ acc ++ ((items.take (j + 1)).map convert))
    else none)

/-- The checkpoint contents specified for the `src/index.ts` loop: one
write for every position `j` (0-based) such that `(idx + j) % 10 = 0` AND
the conversion of the item at `j` succeeded, holding the accumulator at
entry followed by the results of the first `j + 1` items. -/
def cpsSpecV1 (convertE : InputAddressData → Except String OutputAddressData)
    (items : List InputAddressData) (idx : Nat) (acc : List OutputAddressData) :
    List (List OutputAddressData) :=
  (List.range items.length).filterMap (fun j =>
    match items[j]? with
    | none => none
    | some it =>
      if (idx + j) % 10 = 0 ∧ (convertE it).isOk = true then
        some (acc ++ ((items.take (j + 1)).map (convertOrPoison convertE)))
      else none)

/-- After a rewrite, the text starts with the replacement, whose third
character rules out a second match of the `Thành phố` pattern. -/
lemma thanhPho_no_rematch (t : List Char) :
    matchesAnchored thanhPhoP (thiXaR ++ t) = false := rfl

/-- After a rewrite, the text starts with `T`, ruling out a match of the
`Quận` pattern. -/
lemma quan_no_rematch (t : List Char) :
    matchesAnchored quanP (thiXaR ++ t) = false := rfl

/-- The three successive anchored replaces of the source are equivalent to
applying only the first matching pattern, once. -/
lemma makeFallbackL_eq_spec (l : List Char) : makeFallbackL l = specFallbackWsL l := by
  unfold makeFallbackL specFallbackWsL replaceAnchored
  by_cases h1 : matchesAnchored huyenP l
  · simp [h1, thanhPho_no_rematch, quan_no_rematch]
  · by_cases h2 : matchesAnchored thanhPhoP l
    · simp [h1, h2, quan_no_rematch]
    · by_cases h3 : matchesAnchored quanP l <;> simp [h1, h2, h3]

/-- String-level version of `makeFallbackL_eq_spec`. -/
lemma makeFallbackName_eq_spec (s : String) : makeFallbackName s = specFallbackWs s := by
  unfold makeFallbackName specFallbackWs
  rw [makeFallbackL_eq_spec]

/-- Claim C6 (amended): the synthesized fallback label equals the original
with exactly the first matching pattern among `Huyện`, `Thành phố`, `Quận`
followed by a single whitespace character (the JavaScript whitespace
class, not only an ordinary space) replaced once by `Thị xã `; when no
pattern matches, the fallback equals the original, in which case the
selection stage rethrows the original failure without attempting any
fallback. -/
theorem fallback_synthesis_first_pattern_once (s : String) (avail : String → Bool) :
    makeFallbackName s = specFallbackWs s ∧
    (makeFallbackName s = s → avail s = false →
      selectPrefecture avail s = .error (.elementNotFound s)) := by
  refine ⟨makeFallbackName_eq_spec s, ?_⟩
  intro hfix hn
  unfold selectPrefecture
  simp [hn, hfix]

/-- Witness for `fallback_synthesis_first_pattern_once` at a name with no
recognized pattern and a page offering no options. -/
theorem fallback_synthesis_first_pattern_once_witness :
    makeFallbackName "Phường A" = specFallbackWs "Phường A" ∧
    selectPrefecture (fun _ => false) "Phường A" =
      .error (.elementNotFound "Phường A") :=
  ⟨(fallback_synthesis_first_pattern_once "Phường A" (fun _ => false)).1,
   (fallback_synthesis_first_pattern_once "Phường A" (fun _ => false)).2
     (by decide) rfl⟩

/-- Counterexample to claim C6 as stated: the source rewrites any
whitespace character after the literal, not only an ordinary space, so on
a tab-separated name the code produces a rewritten fallback while the
claimed space-only rule leaves the name unchanged. -/
theorem fallback_synthesis_space_only_cex :
    claimFallbackSpace "Huyện\tBa Vì" = "Huyện\tBa Vì" ∧
    makeFallbackName "Huyện\tBa Vì" = "Thị xã Ba Vì" ∧
    makeFallbackName "Huyện\tBa Vì" ≠ claimFallbackSpace "Huyện\tBa Vì" := by
  refine ⟨by decide, by decide, by decide⟩

/-- A sample input record used by the concrete instances below. -/
def recW : InputAddressData := ⟨"Hà Nội", 1, "Quận Ba Đình"⟩

/-- The trace of the retry loop contains at most as many workflow attempts
as the loop has attempts left. -/
lemma attemptCount_retryGo (outcome : Nat → Except String WorkflowSuccess) :
    ∀ r a, attemptCount (retryGo outcome a r).2 ≤ r := by
  intro r
  induction r with
  | zero => intro a; simp [retryGo, attemptCount]
  | succ r ih =>
    intro a
    cases h : outcome a with
    | ok w => simp [retryGo, h, attemptCount]
    | error e =>
      by_cases hr : r = 0
      · simp [retryGo, h, hr, attemptCount]
      · have := ih (a + 1)
        simp only [retryGo, h, hr, if_false, attemptCount] at *
        by_cases hp : a % 2 = 0 <;>
          simp [hp, List.countP_cons, List.countP_append] <;> omega

/-- When every attempt fails, the retry loop returns the error of the last
attempt and the exact specified trace of attempts, backoffs and context
refreshes. -/
lemma retryGo_allFail (errs : Nat → String) :
    ∀ r a, retryGo (fun k => .error (errs k)) a (r + 1) =
      (.error (errs (a + r)), failTraceSpec a (r + 1)) := by
  intro r
  induction r with
  | zero =>
    intro a
    simp [retryGo, failTraceSpec]
  | succ r ih =>
    intro a
    have hside : ∀ i : Nat, a + (i + 1) = (a + 1) + i := by omega
    rw [retryGo]
    simp only [ih (a + 1)]
    refine Prod.ext ?_ ?_
    · simp only []
      have : a + 1 + r = a + (r + 1) := by omega
      simp [Nat.succ_ne_zero, this]
    · simp only [Nat.succ_ne_zero, if_false]
      unfold failTraceSpec
      rw [show r + 1 + 1 - 1 = r + 1 from by omega, List.range_succ_eq_map]
      simp only [List.map_cons, List.map_map, List.flatten_cons, Nat.add_zero]
      have hmap :
          (fun i => RetryAction.runAttempt (a + i) :: RetryAction.backoff (2 ^ (a + i)) ::
            (if (a + i) % 2 = 0 then [RetryAction.refreshContext] else [])) ∘ Nat.succ =
          (fun i => RetryAction.runAttempt ((a + 1) + i) ::
            RetryAction.backoff (2 ^ ((a + 1) + i)) ::
            (if ((a + 1) + i) % 2 = 0 then [RetryAction.refreshContext] else [])) := by
        funext i
        simp [Function.comp, hside i]
      rw [hmap]
      rw [show a + (r + 1 + 1) - 1 = (a + 1) + (r + 1) - 1 from by omega]
      rw [show r + 1 - 1 = r from by omega]
      simp [List.append_assoc]

/-- A successful result of the retry loop comes from a successful attempt
of the workflow oracle. -/
lemma retryGo_ok (outcome : Nat → Except String WorkflowSuccess) :
    ∀ r a w, (retryGo outcome a r).1 = .ok w → ∃ k, outcome k = .ok w := by
  intro r
  induction r with
  | zero => intro a w h; simp [retryGo] at h
  | succ r ih =>
    intro a w h
    cases hout : outcome a with
    | ok w0 =>
      simp [retryGo, hout] at h
      exact ⟨a, by rw [hout, h]⟩
    | error e =>
      by_cases hr : r = 0
      · simp [retryGo, hout, hr] at h
      · simp only [retryGo, hout, hr, if_false] at h
        exact ih (a + 1) w h

/-- A successful `convertSingleAddress` is the result assembly applied to
the outcome of some successful workflow attempt. -/
lemma convertSingleAddressM_ok (N : Nat) (outcome : Nat → Except String WorkflowSuccess)
    (input : InputAddressData) (res : OutputAddressData)
    (h : (convertSingleAddressM N outcome input).1 = .ok res) :
    ∃ k w, outcome k = .ok w ∧ res = mkResult input w := by
  unfold convertSingleAddressM at h
  by_cases hN : N = 0
  · simp [hN] at h
  · simp only [hN, if_false] at h
    cases hrun : (retryGo outcome 1 N).1 with
    | ok w =>
      obtain ⟨k, hk⟩ := retryGo_ok outcome N 1 w hrun
      simp only [hrun] at h
      exact ⟨k, w, hk, by
        have := h
        simp at this
        exact this.symm⟩
    | error e => simp [hrun] at h

/-- Claim C7: for any configured bound `N >= 1` the retry wrapper executes
the workflow at most `N` times; when every attempt fails it performs,
after each failed attempt `k < N`, a `2 ^ k` second backoff and a full
browser-context refresh exactly when `k` is even, and it surfaces the
error of the last attempt `N` to the caller. -/
theorem retry_bound_backoff_refresh (N : Nat) (hN : 1 ≤ N)
    (outcome : Nat → Except String WorkflowSuccess) (errs : Nat → String)
    (input : InputAddressData) :
    attemptCount (convertSingleAddressM N outcome input).2 ≤ N ∧
    convertSingleAddressM N (fun k => .error (errs k)) input =
      (.error (errs N), failTraceSpec 1 N) := by
  have hN0 : N ≠ 0 := by omega
  constructor
  · unfold convertSingleAddressM
    simp only [hN0, if_false]
    exact attemptCount_retryGo outcome N 1
  · unfold convertSingleAddressM
    simp only [hN0, if_false]
    have hsplit : N = (N - 1) + 1 := by omega
    rw [hsplit, retryGo_allFail errs (N - 1) 1]
    rw [show 1 + (N - 1) = (N - 1) + 1 from by omega]

/-- Witness for `retry_bound_backoff_refresh` at `N = 3`. -/
theorem retry_bound_backoff_refresh_witness :
    attemptCount (convertSingleAddressM 3 (fun k => .error (toString k)) recW).2 ≤ 3 ∧
    convertSingleAddressM 3 (fun k => .error (toString k)) recW =
      (.error (toString 3), failTraceSpec 1 3) :=
  retry_bound_backoff_refresh 3 (by decide) (fun k => .error (toString k)) toString recW

/-- One-step unfolding of the specified checkpoint contents of the
`src/index.ts` loop. -/
lemma cpsSpecV1_cons (convertE : InputAddressData → Except String OutputAddressData)
    (item : InputAddressData) (rest : List InputAddressData) (idx : Nat)
    (acc : List OutputAddressData) :
    cpsSpecV1 convertE (item :: rest) idx acc =
      (if idx % 10 = 0 ∧ (convertE item).isOk = true
        then [acc ++ [convertOrPoison convertE item]] else []) ++
      cpsSpecV1 convertE rest (idx + 1) (acc ++ [convertOrPoison convertE item]) := by
  unfold cpsSpecV1
  rw [List.length_cons, List.range_succ_eq_map, List.filterMap_cons, List.filterMap_map]
  have hfun :
      ((fun j =>
        match (item :: rest)[j]? with
        | none => none
        | some it =>
          if (idx + j) % 10 = 0 ∧ (convertE it).isOk = true then
            some (acc ++ (((item :: rest).take (j + 1)).map (convertOrPoison convertE)))
          else none) ∘ Nat.succ) =
      (fun j =>
        match rest[j]? with
        | none => none
        | some it =>
          if ((idx + 1) + j) % 10 = 0 ∧ (convertE it).isOk = true then
            some ((acc ++ [convertOrPoison convertE item]) ++
              ((rest.take (j + 1)).map (convertOrPoison convertE)))
          else none) := by
    funext j
    simp only [Function.comp, List.getElem?_cons_succ]
    cases h : rest[j]? with
    | none => simp
    | some it =>
      simp only []
      rw [show idx + (j + 1) = (idx + 1) + j from by omega]
      rw [List.take_succ_cons, List.map_cons]
      simp [List.append_assoc]
  rw [hfun]
  simp only [List.getElem?_cons_zero, Nat.add_zero, List.take_succ_cons, List.take_zero,
    List.map_cons, List.map_nil]
  by_cases hcond : idx % 10 = 0 ∧ (convertE item).isOk = true
  · simp [hcond]
  · simp [hcond]

/-- The `src/index.ts` loop produces one result per item, in order, each
the conversion or its error-marker entry, and writes exactly the
specified checkpoints. -/
lemma runLoopV1_eq (convertE : InputAddressData → Except String OutputAddressData) :
    ∀ (items : List InputAddressData) (idx : Nat) (acc : List OutputAddressData),
      runLoopV1 convertE items idx acc =
        (acc ++ items.map (convertOrPoison convertE), cpsSpecV1 convertE items idx acc) := by
  intro items
  induction items with
  | nil => intro idx acc; simp [runLoopV1, cpsSpecV1]
  | cons item rest ih =>
    intro idx acc
    rw [cpsSpecV1_cons]
    cases h : convertE item with
    | ok r =>
      have hfp : convertOrPoison convertE item = r := by simp [convertOrPoison, h]
      rw [runLoopV1]
      simp only [h]
      rw [ih (idx + 1) (acc ++ [r])]
      by_cases hidx : idx % 10 = 0
      · simp [hidx, h, hfp, List.append_assoc, Except.isOk, Except.toBool]
      · simp [hidx, h, hfp, List.append_assoc, Except.isOk, Except.toBool]
    | error e =>
      have hfp : convertOrPoison convertE item = poisonResult item e := by
        simp [convertOrPoison, h]
      rw [runLoopV1]
      simp only [h]
      rw [ih (idx + 1) (acc ++ [poisonResult item e])]
      simp [h, hfp, List.append_assoc, Except.isOk, Except.toBool]

/-- A nonempty validated input always drives the `src/index.ts` pipeline
to a successful completion with one result per record. -/
lemma processAllAddressesV1_eq (convertE : InputAddressData → Except String OutputAddressData)
    (input : List InputAddressData) (hne : input ≠ []) :
    processAllAddressesV1 convertE input =
      .ok ⟨input.map (convertOrPoison convertE), cpsSpecV1 convertE input 1 []⟩ := by
  unfold processAllAddressesV1
  rw [if_neg (by simpa using hne)]
  rw [runLoopV1_eq]
  simp

/-- The conversion step as the pipeline driver sees it: the scraper's
`convertSingleAddress` with its per-attempt workflow outcomes. -/
def scraperOracle (N : Nat)
    (outcomes : InputAddressData → Nat → Except String WorkflowSuccess)
    (it : InputAddressData) : Except String OutputAddressData :=
  (convertSingleAddressM N (outcomes it) it).1

/-- A pure conversion used by the concrete instances below. -/
def cvtW (r : InputAddressData) : OutputAddressData :=
  ⟨r.city_name, r.pref_old_id, r.pref_name, "Phường Ngọc Hà", none⟩

/-- Numbered sample input records for the concrete instances below. -/
def mkIn (k : Nat) : InputAddressData := ⟨"Hà Nội", (k : Int), "P" ++ toString k⟩

/-- Claim C10: every result the pipeline emits for a record — through the
normal path, the fallback path (both assembled by `mkResult`) or the
error-marker path (`poisonResult`) — echoes the record's identity fields
unchanged. -/
theorem results_echo_identity_fields (N : Nat)
    (outcomes : InputAddressData → Nat → Except String WorkflowSuccess)
    (input : List InputAddressData) (hne : input ≠ []) :
    processAllAddressesV1 (scraperOracle N outcomes) input =
      .ok ⟨input.map (convertOrPoison (scraperOracle N outcomes)),
           cpsSpecV1 (scraperOracle N outcomes) input 1 []⟩ ∧
    ∀ it : InputAddressData,
      (convertOrPoison (scraperOracle N outcomes) it).city_name = it.city_name ∧
      (convertOrPoison (scraperOracle N outcomes) it).pref_old_id = it.pref_old_id ∧
      (convertOrPoison (scraperOracle N outcomes) it).pref_old_name = it.pref_name := by
  refine ⟨processAllAddressesV1_eq _ input hne, ?_⟩
  intro it
  unfold convertOrPoison
  cases h : scraperOracle N outcomes it with
  | ok res =>
    obtain ⟨k, w, _, hres⟩ := convertSingleAddressM_ok N (outcomes it) it res h
    subst hres
    simp [mkResult]
  | error e => simp [poisonResult]

/-- Witness for `results_echo_identity_fields` with one record converted
successfully and the echo facts read off at that record. -/
theorem results_echo_identity_fields_witness :
    processAllAddressesV1
        (scraperOracle 1 (fun it _ => .ok ⟨it.pref_name, "Phường Ngọc Hà"⟩)) [recW] =
      .ok ⟨[recW].map (convertOrPoison
             (scraperOracle 1 (fun it _ => .ok ⟨it.pref_name, "Phường Ngọc Hà"⟩))),
           cpsSpecV1 (scraperOracle 1 (fun it _ => .ok ⟨it.pref_name, "Phường Ngọc Hà"⟩))
             [recW] 1 []⟩ ∧
    (convertOrPoison (scraperOracle 1 (fun it _ => .ok ⟨it.pref_name, "Phường Ngọc Hà"⟩))
        recW).city_name = recW.city_name ∧
    (convertOrPoison (scraperOracle 1 (fun it _ => .ok ⟨it.pref_name, "Phường Ngọc Hà"⟩))
        recW).pref_old_id = recW.pref_old_id ∧
    (convertOrPoison (scraperOracle 1 (fun it _ => .ok ⟨it.pref_name, "Phường Ngọc Hà"⟩))
        recW).pref_old_name = recW.pref_name := by
  obtain ⟨h1, h2⟩ := results_echo_identity_fields 1
    (fun it _ => .ok ⟨it.pref_name, "Phường Ngọc Hà"⟩) [recW] (by decide)
  exact ⟨h1, (h2 recW).1, (h2 recW).2.1, (h2 recW).2.2⟩

/-- Claim C3 (amended): on the success path of `convertSingleAddress` the
`pref_new_fallback` field is present exactly when the clicked prefecture
label differs from the input name (the fallback path), and when present
it equals the new name that substituted workflow produced; on the
error-marker path the field is always present and holds the input's
original `pref_name`. -/
theorem fallback_field_presence (outcome : Nat → Except String WorkflowSuccess) :
    (∀ (N : Nat) (input : InputAddressData) (res : OutputAddressData)
        (tr : List RetryAction),
      convertSingleAddressM N outcome input = (.ok res, tr) →
        ∃ k w, outcome k = .ok w ∧ res = mkResult input w ∧
          (res.pref_new_fallback ≠ none ↔ w.actualPrefName ≠ input.pref_name) ∧
          (∀ s, res.pref_new_fallback = some s → s = w.newName)) ∧
    (∀ (item : InputAddressData) (msg : String),
      (poisonResult item msg).pref_new_fallback = some item.pref_name) := by
  constructor
  · intro N input res tr h
    have h1 : (convertSingleAddressM N outcome input).1 = .ok res := by rw [h]
    obtain ⟨k, w, hk, hres⟩ := convertSingleAddressM_ok N outcome input res h1
    refine ⟨k, w, hk, hres, ?_, ?_⟩
    · subst hres
      by_cases hw : w.actualPrefName = input.pref_name
      · simp [mkResult, hw]
      · simp [mkResult, hw]
    · intro s hs
      subst hres
      by_cases hw : w.actualPrefName = input.pref_name
      · simp [mkResult, hw] at hs
      · simp [mkResult, hw] at hs
        exact hs.symm
  · intro item msg
    simp [poisonResult]

/-- The workflow outcome of the fallback-path instance below. -/
def wsFallback : WorkflowSuccess := ⟨"Thị xã Ba Vì", "Phường Tây Đằng"⟩

/-- A workflow oracle that always succeeds with `wsFallback`. -/
def ocFallback : Nat → Except String WorkflowSuccess := fun _ => .ok wsFallback

/-- The record of the fallback-path instance below. -/
def recF : InputAddressData := ⟨"Hà Nội", 9, "Huyện Ba Vì"⟩

/-- Witness for `fallback_field_presence` at a record whose prefecture is
reached through the substituted label. -/
theorem fallback_field_presence_witness :
    (∃ k w, ocFallback k = .ok w ∧
      mkResult recF wsFallback = mkResult recF w ∧
      ((mkResult recF wsFallback).pref_new_fallback ≠ none ↔
        w.actualPrefName ≠ recF.pref_name) ∧
      (∀ s, (mkResult recF wsFallback).pref_new_fallback = some s → s = w.newName)) ∧
    (poisonResult recW "boom").pref_new_fallback = some recW.pref_name := by
  refine ⟨?_, (fallback_field_presence ocFallback).2 recW "boom"⟩
  exact (fallback_field_presence ocFallback).1 1 recF (mkResult recF wsFallback)
    [.runAttempt 1] rfl

/-- Counterexample to claim C3 as stated: the error-marker path of the
driver emits a result whose `pref_new_fallback` is present although no
substituted label ever reached a result, and its value is the original
input name, not a produced new name. -/
theorem fallback_field_error_path_cex :
    processAllAddressesV1 (fun _ => .error "Timeout") [recW] =
      .ok ⟨[poisonResult recW "Timeout"], []⟩ ∧
    (poisonResult recW "Timeout").pref_new_fallback = some "Quận Ba Đình" ∧
    (poisonResult recW "Timeout").pref_new_name = "ERROR: Timeout" := by
  refine ⟨rfl, rfl, rfl⟩

/-- The error-marker name always begins with the literal `ERROR:`. -/
lemma errorMarker_take (msg : String) :
    ("ERROR: " ++ msg).data.take 6 = "ERROR:".data := by
  obtain ⟨d⟩ := msg
  rfl

/-- Claim C5 (amended, for the driver with record-level error capture of
`src/index.ts`): a record whose conversion exhausts all retries still
lets the run complete with exactly one result for that record, an
error-marker entry whose `pref_new_name` begins with `ERROR:`, and every
other record's result equals what an oracle that differs only on the
failing record produces. -/
theorem poison_containment
    (convertE convertE2 : InputAddressData → Except String OutputAddressData)
    (input : List InputAddressData) (bad : InputAddressData) (msg : String)
    (hne : input ≠ []) (hbad : convertE bad = .error msg)
    (hagree : ∀ it, it ≠ bad → convertE it = convertE2 it) :
    processAllAddressesV1 convertE input =
      .ok ⟨input.map (convertOrPoison convertE), cpsSpecV1 convertE input 1 []⟩ ∧
    (input.map (convertOrPoison convertE)).length = input.length ∧
    ∀ j (h1 : j < input.length) (h2 : j < (input.map (convertOrPoison convertE)).length),
      (input.get ⟨j, h1⟩ = bad →
        (input.map (convertOrPoison convertE)).get ⟨j, h2⟩ = poisonResult bad msg ∧
        ((input.map (convertOrPoison convertE)).get ⟨j, h2⟩).pref_new_name.data.take 6 =
          "ERROR:".data) ∧
      (input.get ⟨j, h1⟩ ≠ bad →
        (input.map (convertOrPoison convertE)).get ⟨j, h2⟩ =
          convertOrPoison convertE2 (input.get ⟨j, h1⟩)) := by
  refine ⟨processAllAddressesV1_eq convertE input hne, List.length_map input _, ?_⟩
  intro j h1 h2
  have hget : (input.map (convertOrPoison convertE)).get ⟨j, h2⟩ =
      convertOrPoison convertE (input.get ⟨j, h1⟩) := by
    simp
  constructor
  · intro hb
    rw [hget, hb]
    have hp : convertOrPoison convertE bad = poisonResult bad msg := by
      simp [convertOrPoison, hbad]
    rw [hp]
    exact ⟨rfl, errorMarker_take msg⟩
  · intro hb
    rw [hget]
    unfold convertOrPoison
    rw [hagree (input.get ⟨j, h1⟩) hb]

/-- Three-record sample input for the poison-containment instances. -/
def inW3 : List InputAddressData := [mkIn 1, mkIn 2, mkIn 3]

/-- A conversion oracle that fails exactly on the second sample record. -/
def cvtBadE (r : InputAddressData) : Except String OutputAddressData :=
  if r = mkIn 2 then .error "Timeout" else .ok (cvtW r)

/-- Witness for `poison_containment`: the middle record of three fails,
its emitted entry is the error marker, and its neighbours are converted
as if no failure had happened. -/
theorem poison_containment_witness :
    processAllAddressesV1 cvtBadE inW3 =
      .ok ⟨inW3.map (convertOrPoison cvtBadE), cpsSpecV1 cvtBadE inW3 1 []⟩ ∧
    (inW3.map (convertOrPoison cvtBadE)).length = inW3.length ∧
    (inW3.map (convertOrPoison cvtBadE)).get ⟨1, by decide⟩ =
      poisonResult (mkIn 2) "Timeout" ∧
    ((inW3.map (convertOrPoison cvtBadE)).get ⟨1, by decide⟩).pref_new_name.data.take 6 =
      "ERROR:".data ∧
    (inW3.map (convertOrPoison cvtBadE)).get ⟨0, by decide⟩ =
      convertOrPoison (okOracle cvtW) (inW3.get ⟨0, by decide⟩) := by
  obtain ⟨p1, p2, p3⟩ := poison_containment cvtBadE (okOracle cvtW) inW3 (mkIn 2)
    "Timeout" (by decide) rfl (fun it h => by simp [cvtBadE, okOracle, h])
  refine ⟨p1, p2, ?_, ?_, ?_⟩
  · exact ((p3 1 (by decide) (by decide)).1 (by decide)).1
  · exact ((p3 1 (by decide) (by decide)).1 (by decide)).2
  · exact (p3 0 (by decide) (by decide)).2 (by decide)

/-- Counterexample to claim C5 as stated: in the resume-capable variant of
the driver there is no per-record catch, so a record that exhausts its
attempts aborts the whole run instead of yielding an error-marker result
and letting subsequent records proceed. -/
theorem poison_containment_abort_cex :
    processAllAddressesV2 cvtBadE ⟨none, false⟩ inW3 ⟨.absent, .absent⟩ =
      .error "Timeout" := rfl

/-- The filter predicate of `validateInputData` agrees pointwise with the
negation of `amendedInvalid`. -/
lemma validate_keep_iff (r : RawRecord) :
    (truthy r.city_name && truthy r.pref_name && isNumberType r.pref_old_id) =
      decide (¬ amendedInvalid r) := by
  cases hc : truthy r.city_name <;> cases hp : truthy r.pref_name <;>
    cases hn : isNumberType r.pref_old_id <;> simp [amendedInvalid, hc, hp, hn]

/-- Claim C8 (amended): validation keeps exactly the records that are not
invalid in the code's sense — falsy (missing or empty) `city_name` or
`pref_name`, or a `pref_old_id` whose runtime type is not number —
preserving relative order (the result is a sublist), and a record missing
`pref_name` placed between two valid records is the only one dropped. -/
theorem validation_drops_invalid (data : List RawRecord) (v1 b v2 : RawRecord)
    (hv1 : ¬ amendedInvalid v1) (hv2 : ¬ amendedInvalid v2)
    (hb : b.pref_name = .missing) :
    List.Sublist (validateInputData data) data ∧
    validateInputData data = data.filter (fun r => decide (¬ amendedInvalid r)) ∧
    validateInputData [v1, b, v2] = [v1, v2] := by
  refine ⟨List.filter_sublist data, ?_, ?_⟩
  · unfold validateInputData
    exact List.filter_congr (fun r _ => validate_keep_iff r)
  · have h1 : (truthy v1.city_name && truthy v1.pref_name && isNumberType v1.pref_old_id)
        = true := by rw [validate_keep_iff]; simpa using hv1
    have h2 : (truthy v2.city_name && truthy v2.pref_name && isNumberType v2.pref_old_id)
        = true := by rw [validate_keep_iff]; simpa using hv2
    have h3 : (truthy b.city_name && truthy b.pref_name && isNumberType b.pref_old_id)
        = false := by rw [hb]; simp [truthy]
    simp [validateInputData, List.filter, h1, h2, h3]

/-- First valid sample raw record. -/
def rawV1 : RawRecord := ⟨.str "Hà Nội", .num 1, .str "Quận Ba Đình"⟩

/-- Sample raw record missing `pref_name`. -/
def rawB : RawRecord := ⟨.str "Hà Nội", .num 2, .missing⟩

/-- Second valid sample raw record. -/
def rawV2 : RawRecord := ⟨.str "Hà Nội", .num 3, .str "Quận Hoàn Kiếm"⟩

/-- Witness for `validation_drops_invalid` on the three sample records. -/
theorem validation_drops_invalid_witness :
    List.Sublist (validateInputData [rawV1, rawB, rawV2]) [rawV1, rawB, rawV2] ∧
    validateInputData [rawV1, rawB, rawV2] =
      [rawV1, rawB, rawV2].filter (fun r => decide (¬ amendedInvalid r)) ∧
    validateInputData [rawV1, rawB, rawV2] = [rawV1, rawV2] :=
  validation_drops_invalid [rawV1, rawB, rawV2] rawV1 rawB rawV2
    (by decide) (by decide) rfl

/-- A raw record whose `pref_old_id` is the non-integer number `3 / 2`. -/
def rawHalf : RawRecord := ⟨.str "Hà Nội", .num (mkRat 3 2), .str "Quận Ba Đình"⟩

/-- Counterexample to claim C8 as stated: the code checks only
`typeof pref_old_id === "number"`, so a record with the non-integer id
`3 / 2` — invalid according to the claim — is kept by validation. -/
theorem validation_noninteger_kept_cex :
    validateInputData [rawHalf] = [rawHalf] ∧ claimInvalid rawHalf := by
  refine ⟨by decide, Or.inr (Or.inr (by decide))⟩

/-- One-step unfolding of the specified checkpoint contents of the
resume-capable loop. -/
lemma cpsSpecV2_cons (existing : List OutputAddressData)
    (convert : InputAddressData → OutputAddressData) (item : InputAddressData)
    (rest : List InputAddressData) (idx : Nat) (acc : List OutputAddressData) :
    cpsSpecV2 existing convert (item :: rest) idx acc =
      (if idx % 10 = 0 then [existing ++ (acc ++ [convert item])] else []) ++
      cpsSpecV2 existing convert rest (idx + 1) (acc ++ [convert item]) := by
  unfold cpsSpecV2
  rw [List.length_cons, List.range_succ_eq_map, List.filterMap_cons, List.filterMap_map]
  have hfun :
      ((fun j =>
        if (idx + j) % 10 = 0 then
          some (existing ++ acc ++ (((item :: rest).take (j + 1)).map convert))
        else none) ∘ Nat.succ) =
      (fun j =>
        if ((idx + 1) + j) % 10 = 0 then
          some (existing ++ (acc ++ [convert item]) ++ ((rest.take (j + 1)).map convert))
        else none) := by
    funext j
    simp only [Function.comp]
    rw [show idx + (j + 1) = (idx + 1) + j from by omega]
    rw [List.take_succ_cons, List.map_cons]
    simp [List.append_assoc]
  rw [hfun]
  simp only [Nat.add_zero, List.take_succ_cons, List.take_zero, List.map_cons, List.map_nil]
  by_cases hcond : idx % 10 = 0
  · simp [hcond, List.append_assoc]
  · simp [hcond]

/-- With an always-successful conversion the resume-capable loop returns
one result per item, in order, and writes exactly the specified
checkpoints. -/
lemma runLoopV2_ok (convert : InputAddressData → OutputAddressData)
    (existing : List OutputAddressData) :
    ∀ (items : List InputAddressData) (idx : Nat) (acc : List OutputAddressData),
      runLoopV2 (okOracle convert) existing items idx acc =
        .ok (acc ++ items.map convert, cpsSpecV2 existing convert items idx acc) := by
  intro items
  induction items with
  | nil => intro idx acc; simp [runLoopV2, cpsSpecV2]
  | cons item rest ih =>
    intro idx acc
    rw [cpsSpecV2_cons]
    rw [runLoopV2]
    simp only [okOracle]
    rw [ih (idx + 1) (acc ++ [convert item])]
    by_cases hidx : idx % 10 = 0
    · simp [hidx, List.append_assoc]
    · simp [hidx, List.append_assoc]

/-- Seven-record sample input with ids 1..7. -/
def inW7 : List InputAddressData :=
  [mkIn 1, mkIn 2, mkIn 3, mkIn 4, mkIn 5, mkIn 6, mkIn 7]

/-- Claim C1 evaluated on the code: with resume requested, a checkpoint
ending at id 5, and the explicit start-from value 3 both supplied, the
run processes exactly the records with id at least 6 — the checkpoint
cursor — whereas the claimed explicit-value precedence would process the
records with id at least 3. -/
theorem start_from_ignored_under_resume :
    (processAllAddressesV2 (okOracle cvtW) ⟨some 3, true⟩ inW7
        ⟨.parsed [cvtW (mkIn 5)], .absent⟩).map
      (fun o => o.processed.map (fun r => r.pref_old_id)) = .ok [6, 7] ∧
    inW7.filter (fun r => decide ((3 : Int) ≤ r.pref_old_id)) =
      [mkIn 3, mkIn 4, mkIn 5, mkIn 6, mkIn 7] ∧
    ([6, 7] : List Int) ≠ [3, 4, 5, 6, 7] := by
  refine ⟨rfl, rfl, by decide⟩

/-- Claim C4: with resume requested, an absent or empty checkpoint yields
no cursor and every validated record is processed without error; a
non-empty checkpoint ending at an element with id `K` filters processing
to exactly the validated records with id at least `K + 1`; an unparsable
checkpoint aborts the run. -/
theorem resume_cursor_semantics (convert : InputAddressData → OutputAddressData)
    (opts : RunOptions) (input : List InputAddressData) (fs : FS)
    (hres : opts.resumeFromProgress = true) (hne : input ≠ []) :
    ((fs.progress = .absent ∨ fs.progress = .parsed []) →
      (processAllAddressesV2 (okOracle convert) opts input fs).map RunOutcome.processed =
        .ok input) ∧
    (∀ xs lastRec, fs.progress = .parsed xs → xs.getLast? = some lastRec →
      (processAllAddressesV2 (okOracle convert) opts input fs).map RunOutcome.processed =
        .ok (input.filter (fun r => decide (lastRec.pref_old_id + 1 ≤ r.pref_old_id)))) ∧
    (fs.progress = .corrupt →
      processAllAddressesV2 (okOracle convert) opts input fs =
        .error "Failed to read progress file") := by
  have hbool : input.isEmpty = false := by
    cases input with
    | nil => exact absurd rfl hne
    | cons a l => rfl
  refine ⟨?_, ?_, ?_⟩
  · intro hcase
    have hgl : getLastProcessedId fs.progress = .ok none := by
      rcases hcase with h | h <;> rw [h] <;> rfl
    have hrs : resolveStart opts fs = .ok (none, existingOf fs.output) := by
      unfold resolveStart
      rw [hres]
      simp [hgl]
    simp [processAllAddressesV2, hbool, hrs, runLoopV2_ok, Except.map]
  · intro xs lastRec hprog hlast
    have hrs : resolveStart opts fs =
        .ok (some (lastRec.pref_old_id + 1), existingOf fs.output) := by
      unfold resolveStart
      rw [hres]
      simp [getLastProcessedId, hprog, hlast]
    by_cases hfe :
        (input.filter (fun r => decide (lastRec.pref_old_id + 1 ≤ r.pref_old_id))).isEmpty
    · have hfil : input.filter (fun r => decide (lastRec.pref_old_id + 1 ≤ r.pref_old_id)) =
          [] := by simpa [List.isEmpty_iff] using hfe
      simp [processAllAddressesV2, hbool, hrs, hfe, hfil, Except.map]
    · simp [processAllAddressesV2, hbool, hrs, hfe, runLoopV2_ok, Except.map]
  · intro hprog
    have hrs : resolveStart opts fs = .error "Failed to read progress file" := by
      unfold resolveStart
      rw [hres]
      simp [getLastProcessedId, hprog]
    simp [processAllAddressesV2, hbool, hrs]

/-- Witness for `resume_cursor_semantics`: the three checkpoint states
exercised on the three-record sample input. -/
theorem resume_cursor_semantics_witness :
    (processAllAddressesV2 (okOracle cvtW) ⟨none, true⟩ inW3 ⟨.absent, .absent⟩).map
      RunOutcome.processed = .ok inW3 ∧
    (processAllAddressesV2 (okOracle cvtW) ⟨none, true⟩ inW3
        ⟨.parsed [cvtW (mkIn 2)], .absent⟩).map RunOutcome.processed =
      .ok (inW3.filter (fun r =>
        decide ((cvtW (mkIn 2)).pref_old_id + 1 ≤ r.pref_old_id))) ∧
    processAllAddressesV2 (okOracle cvtW) ⟨none, true⟩ inW3 ⟨.corrupt, .absent⟩ =
      .error "Failed to read progress file" := by
  refine ⟨?_, ?_, ?_⟩
  · exact (resume_cursor_semantics cvtW ⟨none, true⟩ inW3 ⟨.absent, .absent⟩ rfl
      (by decide)).1 (Or.inl rfl)
  · exact (resume_cursor_semantics cvtW ⟨none, true⟩ inW3 ⟨.parsed [cvtW (mkIn 2)], .absent⟩
      rfl (by decide)).2.1 [cvtW (mkIn 2)] (cvtW (mkIn 2)) rfl rfl
  · exact (resume_cursor_semantics cvtW ⟨none, true⟩ inW3 ⟨.corrupt, .absent⟩ rfl
      (by decide)).2.2 rfl

/-- Every checkpoint of the `src/index.ts` loop is a prefix of the final
result list. -/
lemma cpsSpecV1_isPrefix (convertE : InputAddressData → Except String OutputAddressData)
    (input : List InputAddressData) :
    ∀ c ∈ cpsSpecV1 convertE input 1 [],
      c = (input.map (convertOrPoison convertE)).take c.length := by
  intro c hc
  unfold cpsSpecV1 at hc
  rw [List.mem_filterMap] at hc
  obtain ⟨j, hj, hfj⟩ := hc
  rw [List.mem_range] at hj
  rw [List.getElem?_eq_getElem hj] at hfj
  simp only [] at hfj
  by_cases hcond : (1 + j) % 10 = 0 ∧ (convertE input[j]).isOk = true
  · rw [if_pos hcond] at hfj
    have hc2 : c = (input.take (j + 1)).map (convertOrPoison convertE) := by
      have := hfj
      injection this with h2
      rw [← h2]
      simp
    rw [hc2, ← List.map_take] at *
    rw [List.map_take, List.length_take, List.length_map]
    have hlen : min (j + 1) input.length = j + 1 := by omega
    rw [hlen, List.map_take]
  · rw [if_neg hcond] at hfj
    cases hfj

/-- Every checkpoint of the resume-capable loop is a prefix of the final
output artifact. -/
lemma cpsSpecV2_isPrefix (existing : List OutputAddressData)
    (convert : InputAddressData → OutputAddressData) (items : List InputAddressData) :
    ∀ c ∈ cpsSpecV2 existing convert items 1 [],
      c = (existing ++ items.map convert).take c.length := by
  intro c hc
  unfold cpsSpecV2 at hc
  rw [List.mem_filterMap] at hc
  obtain ⟨j, hj, hfj⟩ := hc
  rw [List.mem_range] at hj
  by_cases hcond : (1 + j) % 10 = 0
  · rw [if_pos hcond] at hfj
    have hc2 : c = existing ++ (items.map convert).take (j + 1) := by
      injection hfj with h2
      rw [← h2]
      simp [List.map_take]
    rw [hc2]
    rw [List.length_append, List.length_take, List.length_map]
    have hlen : min (j + 1) items.length = j + 1 := by omega
    rw [hlen]
    rw [List.take_append_eq_append_take]
    congr 1
    · exact (List.take_of_length_le (by omega)).symm
    · congr 1
      omega
  · rw [if_neg hcond] at hfj
    cases hfj

/-- Inversion of a successful run of the resume-capable pipeline with an
always-successful conversion: the session results are the conversions of
the processed records, the checkpoints are the specified ones, and the
final artifact (when written) is the previously converted prefix followed
by this run's results. -/
lemma processAllAddressesV2_inv (convert : InputAddressData → OutputAddressData)
    (opts : RunOptions) (input : List InputAddressData) (fs : FS) (out : RunOutcome)
    (h : processAllAddressesV2 (okOracle convert) opts input fs = .ok out) :
    out.sessionResults = out.processed.map convert ∧
    out.checkpoints = cpsSpecV2 out.priorResults convert out.processed 1 [] ∧
    (out.finalOutput = none ∨
      out.finalOutput = some (out.priorResults ++ out.sessionResults)) := by
  unfold processAllAddressesV2 at h
  by_cases hin : input.isEmpty
  · rw [if_pos hin] at h
    cases h
  · rw [if_neg hin] at h
    cases hrs : resolveStart opts fs with
    | error e =>
      rw [hrs] at h
      cases h
    | ok pr =>
      rw [hrs] at h
      obtain ⟨cursor, existing⟩ := pr
      cases cursor with
      | none =>
        simp only [Option.isSome_none, Bool.false_and, Bool.false_eq_true, if_false,
          runLoopV2_ok] at h
        injection h with h2
        rw [← h2]
        simp
      | some k =>
        by_cases hfe : (input.filter (fun item => decide (k ≤ item.pref_old_id))).isEmpty
        · simp only [Option.isSome_some, Bool.true_and, hfe, if_true] at h
          injection h with h2
          rw [← h2]
          simp [cpsSpecV2]
        · simp only [Option.isSome_some, Bool.true_and, hfe, Bool.false_eq_true, if_false,
            runLoopV2_ok] at h
          injection h with h2
          rw [← h2]
          simp

/-- Claim C9 (amended): in the `src/index.ts` driver every checkpoint
write occurs exactly after a 10th processed record whose own conversion
succeeded (a failing record yields its error-marker result but skips that
cycle's write), holding precisely the results accumulated so far — a
prefix of the final results; in the resume-capable driver every
checkpoint holds the resumed prefix followed by this run's results so
far, again a prefix of the final artifact. -/
theorem checkpoint_every_tenth
    (convertE : InputAddressData → Except String OutputAddressData)
    (input : List InputAddressData) (hne : input ≠ [])
    (convert : InputAddressData → OutputAddressData) (opts : RunOptions) (fs : FS)
    (input2 : List InputAddressData) (out : RunOutcome)
    (h2 : processAllAddressesV2 (okOracle convert) opts input2 fs = .ok out) :
    processAllAddressesV1 convertE input =
      .ok ⟨input.map (convertOrPoison convertE), cpsSpecV1 convertE input 1 []⟩ ∧
    (∀ c ∈ cpsSpecV1 convertE input 1 [],
      c = (input.map (convertOrPoison convertE)).take c.length) ∧
    out.sessionResults = out.processed.map convert ∧
    out.checkpoints = cpsSpecV2 out.priorResults convert out.processed 1 [] ∧
    ∀ fin, out.finalOutput = some fin →
      fin = out.priorResults ++ out.sessionResults ∧
      ∀ c ∈ out.checkpoints, c = fin.take c.length := by
  obtain ⟨ha, hb, hc⟩ := processAllAddressesV2_inv convert opts input2 fs out h2
  refine ⟨processAllAddressesV1_eq convertE input hne, cpsSpecV1_isPrefix convertE input,
    ha, hb, ?_⟩
  intro fin hfin
  rcases hc with hnone | hsome
  · rw [hnone] at hfin
    cases hfin
  · rw [hsome] at hfin
    injection hfin with hfin2
    constructor
    · exact hfin2.symm
    · intro c hcmem
      rw [← hfin2, ha]
      rw [hb] at hcmem
      exact cpsSpecV2_isPrefix out.priorResults convert out.processed c hcmem

/-- Sample input of 25 records with ids 1..25. -/
def inW25 : List InputAddressData := (List.range 25).map (fun k => mkIn (k + 1))

/-- Witness for `checkpoint_every_tenth`: 25 successfully converted
records yield checkpoint writes after the 10th and 20th only, holding 10
and 20 results; plus a resume-capable early return with no writes. -/
theorem checkpoint_every_tenth_witness :
    processAllAddressesV1 (okOracle cvtW) inW25 =
      .ok ⟨inW25.map (convertOrPoison (okOracle cvtW)),
           cpsSpecV1 (okOracle cvtW) inW25 1 []⟩ ∧
    (cpsSpecV1 (okOracle cvtW) inW25 1 []).map List.length = [10, 20] ∧
    (⟨[], [], [], [], none⟩ : RunOutcome).checkpoints =
      cpsSpecV2 ([] : List OutputAddressData) cvtW ([] : List InputAddressData) 1 [] := by
  obtain ⟨p1, _, _, p4, _⟩ := checkpoint_every_tenth (okOracle cvtW) inW25 (by decide)
    cvtW ⟨none, true⟩ ⟨.parsed [cvtW (mkIn 3)], .absent⟩ inW3 ⟨[], [], [], [], none⟩ rfl
  exact ⟨p1, by decide, p4⟩

/-- Ten-record sample input with ids 1..10. -/
def inW10 : List InputAddressData := (List.range 10).map (fun k => mkIn (k + 1))

/-- A conversion oracle failing exactly on the record with id 10. -/
def cvtBad10E (r : InputAddressData) : Except String OutputAddressData :=
  if r = mkIn 10 then .error "Timeout" else .ok (cvtW r)

/-- Counterexample to claim C9 as stated: in the `src/index.ts` driver the
periodic write sits inside the per-record try, so when the 10th record's
conversion fails the run emits 10 results (the 10th an error marker) but
performs no checkpoint write at all. -/
theorem checkpoint_skipped_on_failure_cex :
    (processAllAddressesV1 cvtBad10E inW10).map
      (fun o => (o.results.length, o.checkpoints)) = .ok (10, []) := rfl

/-- When the run length is a positive multiple of 10, the last checkpoint
of a fresh run holds all of the run's results. -/
lemma cpsSpecV2_getLast_full (convert : InputAddressData → OutputAddressData)
    (input : List InputAddressData) (m : Nat)
    (hm : input.length = 10 * m) (hm0 : 0 < m) :
    (cpsSpecV2 [] convert input 1 []).getLast? = some (input.map convert) := by
  unfold cpsSpecV2
  have hn1 : input.length = (input.length - 1) + 1 := by omega
  rw [hn1, List.range_succ, List.filterMap_append]
  have hcond : (1 + (input.length - 1)) % 10 = 0 := by omega
  have hval : (input.take ((input.length - 1) + 1)).map convert = input.map convert := by
    rw [← hn1, List.take_length]
  simp only [List.filterMap_cons, List.filterMap_nil, hcond, if_true, List.nil_append, hval]
  exact List.getLast?_concat _

/-- Claim C2 (amended): when the validated input's ids never exceed the
last record's id (as the resume design assumes of its monotone inputs)
and its length is a positive multiple of 10 — so that the final progress
write covers the entire run — completing a run and re-running with resume
processes zero records, touches no file, and leaves the output artifact
exactly as the first run wrote it. -/
theorem resume_idempotent_on_full_checkpoint
    (convert : InputAddressData → OutputAddressData) (input : List InputAddressData)
    (fs0 : FS) (m : Nat) (z : InputAddressData)
    (hm : input.length = 10 * m) (hm0 : 0 < m) (hz : input.getLast? = some z)
    (hmono : ∀ r ∈ input, r.pref_old_id ≤ z.pref_old_id)
    (hid : ∀ r, (convert r).pref_old_id = r.pref_old_id) :
    processAllAddressesV2 (okOracle convert) ⟨none, false⟩ input fs0 =
      .ok ⟨[], input, input.map convert, cpsSpecV2 [] convert input 1 [],
           some (input.map convert)⟩ ∧
    applyRun fs0 ⟨[], input, input.map convert, cpsSpecV2 [] convert input 1 [],
           some (input.map convert)⟩ =
      ⟨.parsed (input.map convert), .parsed (input.map convert)⟩ ∧
    processAllAddressesV2 (okOracle convert) ⟨none, true⟩ input
        ⟨.parsed (input.map convert), .parsed (input.map convert)⟩ =
      .ok ⟨input.map convert, [], [], [], none⟩ ∧
    applyRun ⟨.parsed (input.map convert), .parsed (input.map convert)⟩
        ⟨input.map convert, [], [], [], none⟩ =
      ⟨.parsed (input.map convert), .parsed (input.map convert)⟩ := by
  have hbool : input.isEmpty = false := by
    cases input with
    | nil => simp at hm; omega
    | cons a l => rfl
  refine ⟨?_, ?_, ?_, ?_⟩
  · have hrs : resolveStart ⟨none, false⟩ fs0 = .ok (none, []) := rfl
    simp [processAllAddressesV2, hbool, hrs, runLoopV2_ok]
  · unfold applyRun
    rw [cpsSpecV2_getLast_full convert input m hm hm0]
  · have hlastmap : (input.map convert).getLast? = some (convert z) := by
      rw [List.getLast?_map, hz]
      rfl
    have hrs : resolveStart ⟨none, true⟩
        ⟨.parsed (input.map convert), .parsed (input.map convert)⟩ =
        .ok (some (z.pref_old_id + 1), input.map convert) := by
      unfold resolveStart getLastProcessedId
      simp [hlastmap, hid z, existingOf]
    have hfil : input.filter (fun r => decide (z.pref_old_id + 1 ≤ r.pref_old_id)) = [] := by
      rw [List.filter_eq_nil_iff]
      intro r hr
      have := hmono r hr
      simp only [decide_eq_true_eq]
      omega
    simp [processAllAddressesV2, hbool, hrs, hfil]
  · rfl

/-- Witness for `resume_idempotent_on_full_checkpoint` on ten records. -/
theorem resume_idempotent_on_full_checkpoint_witness :
    processAllAddressesV2 (okOracle cvtW) ⟨none, false⟩ inW10 ⟨.absent, .absent⟩ =
      .ok ⟨[], inW10, inW10.map cvtW, cpsSpecV2 [] cvtW inW10 1 [],
           some (inW10.map cvtW)⟩ ∧
    applyRun ⟨.absent, .absent⟩ ⟨[], inW10, inW10.map cvtW, cpsSpecV2 [] cvtW inW10 1 [],
           some (inW10.map cvtW)⟩ =
      ⟨.parsed (inW10.map cvtW), .parsed (inW10.map cvtW)⟩ ∧
    processAllAddressesV2 (okOracle cvtW) ⟨none, true⟩ inW10
        ⟨.parsed (inW10.map cvtW), .parsed (inW10.map cvtW)⟩ =
      .ok ⟨inW10.map cvtW, [], [], [], none⟩ ∧
    applyRun ⟨.parsed (inW10.map cvtW), .parsed (inW10.map cvtW)⟩
        ⟨inW10.map cvtW, [], [], [], none⟩ =
      ⟨.parsed (inW10.map cvtW), .parsed (inW10.map cvtW)⟩ :=
  resume_idempotent_on_full_checkpoint cvtW inW10 ⟨.absent, .absent⟩ 1 (mkIn 10)
    (by decide) (by decide) (by decide) (by decide) (fun r => rfl)

/-- Counterexample to claim C2 as stated: after completing a one-record
run the progress file was never written (one is below the 10-record
period), so re-running with resume finds no cursor, reprocesses the
record, and appends a duplicate to the output artifact. -/
theorem rerun_resume_not_idempotent_cex :
    (processAllAddressesV2 (okOracle cvtW) ⟨none, false⟩ [mkIn 1]
        ⟨.absent, .absent⟩).map
      (fun o => (o.processed.length, applyRun ⟨.absent, .absent⟩ o)) =
      .ok (1, ⟨.absent, .parsed [cvtW (mkIn 1)]⟩) ∧
    (processAllAddressesV2 (okOracle cvtW) ⟨none, true⟩ [mkIn 1]
        ⟨.absent, .parsed [cvtW (mkIn 1)]⟩).map
      (fun o => (o.processed.length, o.finalOutput)) =
      .ok (1, some [cvtW (mkIn 1), cvtW (mkIn 1)]) ∧
    (1 : Nat) ≠ 0 ∧
    some [cvtW (mkIn 1), cvtW (mkIn 1)] ≠ some [cvtW (mkIn 1)] := by
  refine ⟨rfl, rfl, by decide, by decide⟩
